import Mathlib

/-!
Shallow embedding of the scan_master backend handlers, translated from the
Python sources under `backend/`, together with theorems settling the frozen
claims about the natural-language specification.

Machine times are modelled as integers counting seconds.  Firestore
collections are modelled as association lists keyed by document id; the
process-local upload-count cache is an association list from user id to a
(count, written-at) pair, mirroring the Python dict `upload_cache`.
-/

/-- Outcome of the bearer-token check that the HTTP handlers perform.
`missingHeader` / `notBearer` are the falsy / malformed `Authorization`
header cases; `invalidToken` is a header that `verify_id_token` rejects;
`valid uid email` is a verified caller. -/
inductive AuthResult where
  | missingHeader
  | notBearer
  | invalidToken
  | valid (uid : String) (email : String)
deriving DecidableEq, Repr

namespace Allowance

/-- A `users` collection document, as created/read by
`check_upload_allowance_service/main.py`. -/
structure UserProfile where
  email : String
  isSubscribed : Bool
  subscriptionType : String
deriving DecidableEq, Repr

/-- A `files` collection document as seen by the allowance query: only
`userId` and `uploadTimestamp` (seconds) are consulted. -/
structure FileRec where
  userId : String
  uploadTimestamp : Int
deriving DecidableEq, Repr

/-- One entry of the process-local `upload_cache` dict:
`{'count': ..., 'timestamp': ...}` with the timestamp in seconds. -/
structure CacheEntry where
  count : Nat
  timestamp : Int
deriving DecidableEq, Repr

/-- The state visible to `check_upload_allowance`: the `users` and `files`
collections plus the in-process `upload_cache`. -/
structure UAState where
  users : List (String × UserProfile)
  files : List FileRec
  cache : List (String × CacheEntry)
deriving DecidableEq, Repr

/-- `CACHE_TTL_MINUTES = 5`, expressed in seconds. -/
def CACHE_TTL_SECONDS : Int := 300

/-- Seven days in seconds; the trailing window of the count query. -/
def SEVEN_DAYS_SECONDS : Int := 604800

/-- `get_cached_upload_count(uid)`: a hit strictly younger than the TTL
returns the cached count unchanged; an expired entry is deleted
(`del upload_cache[uid]`) and the lookup reports a miss. Returns the
count (if any) together with the possibly-updated cache. -/
def get_cached_upload_count (cache : List (String × CacheEntry)) (uid : String)
    (now : Int) : Option Nat × List (String × CacheEntry) :=
  match cache.lookup uid with
  | some e =>
      if now - e.timestamp < CACHE_TTL_SECONDS then
        (some e.count, cache)
      else
        (none, cache.eraseP (fun p => p.1 == uid))
  | none => (none, cache)

/-- `cache_upload_count(uid, count)`: store `(count, now)` under `uid`,
replacing any previous entry (Python dict assignment). -/
def cache_upload_count (cache : List (String × CacheEntry)) (uid : String)
    (count : Nat) (now : Int) : List (String × CacheEntry) :=
  (uid, ⟨count, now⟩) :: cache.eraseP (fun p => p.1 == uid)

/-- Observable side effects of one `check_upload_allowance` invocation. -/
structure UAEffects where
  profileCreated : Option (String × UserProfile) := none
  dbCountQuery : Bool := false
deriving DecidableEq, Repr

/-- The HTTP response and post-state of one `check_upload_allowance` call.
`allow = some b` is a 200 response `{"data": {"allow": b, "reason": ...}}`;
`allow = none` is the 500 `{"error": ...}` path. -/
structure UAResult where
  status : Nat
  allow : Option Bool
  reason : String
  state : UAState
  effects : UAEffects
deriving DecidableEq, Repr

/-- The number of `files` documents owned by `uid` whose upload timestamp
lies in the trailing 7-day window — the true count the spec calls `N`. -/
def weekCount (files : List FileRec) (uid : String) (now : Int) : Nat :=
  (files.filter (fun f =>
    f.userId == uid && now - SEVEN_DAYS_SECONDS ≤ f.uploadTimestamp)).length

/-- The 7-day Firestore count query of step 3, including the
`.limit(FREE_TIER_LIMIT + 1)` cap: the number of streamed documents is the
number of matches truncated at `limit + 1`. -/
def countQuery (files : List FileRec) (uid : String) (now : Int)
    (limit : Nat) : Nat :=
  min (weekCount files uid now) (limit + 1)

/-- Modelled from the spec: the allowance decision computed from the true
7-day count `n` against the limit — allow iff strictly below.  Used as
the specification side of the C10 refinement comparison. -/
def spec_allow_from_true_count (n limit : Nat) : Bool := decide (n < limit)

/-- `check_upload_allowance(request)`, translated from
`check_upload_allowance_service/main.py`.  Any `raise` reaching the
top-level `except` block becomes a 500 `INTERNAL` response; auth failures
(`ValueError("Unauthorized")` or a `verify_id_token` exception) take that
path.  `limit` is `FREE_TIER_LIMIT`; `now` is the current time in
seconds. -/
def check_upload_allowance (limit : Nat) (auth : AuthResult) (st : UAState)
    (now : Int) : UAResult :=
  match auth with
  | .missingHeader =>
      ⟨500, none, "Backend Error: ValueError - Unauthorized", st, {}⟩
  | .notBearer =>
      ⟨500, none, "Backend Error: ValueError - Unauthorized", st, {}⟩
  | .invalidToken =>
      ⟨500, none, "Backend Error: InvalidIdTokenError - invalid token", st, {}⟩
  | .valid uid email =>
      match st.users.lookup uid with
      | none =>
          let prof : UserProfile := ⟨email, false, "free"⟩
          ⟨200, some true, "New user profile created.",
            { st with
                users := (uid, prof) :: st.users,
                cache := cache_upload_count st.cache uid 0 now },
            { profileCreated := some (uid, prof), dbCountQuery := false }⟩
      | some prof =>
          if prof.isSubscribed then
            ⟨200, some true, "User is subscribed", st, {}⟩
          else
            let gc := get_cached_upload_count st.cache uid now
            let res : Nat × List (String × CacheEntry) × Bool :=
              match gc.1 with
              | some c => (c, gc.2, false)
              | none =>
                  let n := countQuery st.files uid now limit
                  (n, cache_upload_count gc.2 uid n now, true)
            let st' := { st with cache := res.2.1 }
            if res.1 < limit then
              ⟨200, some true,
                "Usage (" ++ toString res.1 ++ "/" ++ toString limit ++
                  ") is within the free limit.",
                st', { dbCountQuery := res.2.2 }⟩
            else
              ⟨200, some false,
                "Weekly upload limit of " ++ toString limit ++
                  " files has been reached.",
                st', { dbCountQuery := res.2.2 }⟩

end Allowance

namespace Docs

/-- A `files` collection document, with the fields consulted by the
chat / summary / chat-preparation handlers. -/
structure FileData where
  userId : String
  isChatReady : Bool := false
  summary : Option String := none
  pdfPath : Option String := none
  chatStatus : Option String := none
deriving DecidableEq, Repr

/-- The Firestore state the document handlers read: the `files` collection
and the `document_content` collection (doc id ↦ `full_text`). -/
structure DocDb where
  files : List (String × FileData)
  contents : List (String × String)
deriving DecidableEq, Repr

/-- A write performed on a `files` document: either the
`summary`/`isChatReady`/`chatStatus` success update, or the best-effort
`chatStatus = 'failed'` update from an `except` block. -/
inductive FileUpdate where
  | summaryReady (summary : String)
  | statusFailed
deriving DecidableEq, Repr

/-- Observable side effects of one document-handler invocation:
whether the PDF blob was downloaded (and its text extracted), whether
the generative API was called, and all Firestore writes. -/
structure DocEffects where
  downloaded : Bool := false
  geminiCalled : Bool := false
  contentWrites : List (String × String) := []
  fileUpdates : List (String × FileUpdate) := []
deriving DecidableEq, Repr

/-- HTTP result of a document handler: the status, the `data` payload
string (answer or summary) on success, the error message otherwise, and
the side effects performed. -/
structure DocResult where
  status : Nat
  payload : Option String := none
  errMsg : Option String := none
  eff : DocEffects := {}
deriving DecidableEq, Repr

/-- The chat prompt built by `chat_service/main.py` (the apostrophe of
the source's `USER'S QUESTION` label is elided here; no theorem depends
on the prompt text). -/
def chatPrompt (full_text question : String) : String :=
  "\nBased *only* on the content of the document provided below, answer " ++
    "the users question.\nIf the answer cannot be found in the " ++
    "document, say \"I could not find an answer to that in this " ++
    "document.\"\n\nDOCUMENT CONTENT:\n---\n" ++ full_text ++
    "\n---\n\nUSERS QUESTION: " ++ question ++ "\n\nANSWER:"

/-- Page-by-page text extraction: `full_text += page.extract_text() + "\n"`
over all pages. -/
def extractText (pages : List String) : String :=
  pages.foldl (fun acc p => acc ++ p ++ "\n") ""

/-- The summary prompt of `generate_doc_summary_service/main.py`, whose
text is capped at 4000 characters (`full_text[:4000]`). -/
def summaryPromptCapped (full_text : String) : String :=
  "Provide a concise, one-paragraph summary of the following " ++
    "document:\n\n" ++ full_text.take 4000

/-- The summary prompt of `prepare_chat_service/main.py` (uncapped). -/
def summaryPromptFull (full_text : String) : String :=
  "Provide a concise, one-paragraph summary of the following " ++
    "document:\n\n" ++ full_text

/-- `chat_with_document(request)`, translated from `chat_service/main.py`.
A missing or malformed `Authorization` header returns 401 directly; a
token rejected by `verify_id_token` raises into the top-level `except`
and returns 500.  The handler performs no Firestore writes on any path.
`geminiKey` says whether `GEMINI_API_KEY` is set; `gemini` is the
generative model as a black box from prompt to response text. -/
def chat_with_document (auth : AuthResult) (docId question : String)
    (db : DocDb) (geminiKey : Bool) (gemini : String → String) : DocResult :=
  match auth with
  | .missingHeader => ⟨401, none, some "Unauthorized", {}⟩
  | .notBearer => ⟨401, none, some "Unauthorized", {}⟩
  | .invalidToken => ⟨500, none, some "invalid token", {}⟩
  | .valid uid _ =>
      if docId == "" || question == "" then
        ⟨500, none, some "Missing documentId or question.", {}⟩
      else
        match db.files.lookup docId with
        | none => ⟨500, none, some ("Document " ++ docId ++ " not found."), {}⟩
        | some fd =>
            if fd.userId == uid then
              match db.contents.lookup docId with
              | none =>
                  ⟨500, none,
                    some ("No content found for document " ++ docId ++ "."), {}⟩
              | some full_text =>
                  if full_text == "" then
                    ⟨200,
                      some "I could not find any text content for this document.",
                      none, {}⟩
                  else if !geminiKey then
                    ⟨500, none,
                      some "GEMINI_API_KEY environment variable not set", {}⟩
                  else
                    ⟨200, some (gemini (chatPrompt full_text question)), none,
                      { geminiCalled := true }⟩
            else ⟨403, none, some "Forbidden", {}⟩

/-- `generate_doc_summary(request)`, translated from
`generate_doc_summary_service/main.py`.  Note the source parses the
payload *before* the auth check, and its `except` block best-effort
writes `chatStatus = 'failed'` whenever `doc_id` was already bound (the
write only lands when the `files` document exists).  `pdfPages path`
is the downloaded PDF as its per-page extracted texts (`none` when the
download or parse raises). -/
def generate_doc_summary (docIdOpt : Option String) (auth : AuthResult)
    (db : DocDb) (pdfPages : String → Option (List String))
    (geminiKey : Bool) (gemini : String → String) : DocResult :=
  match docIdOpt with
  | none => ⟨500, none, some "Missing documentId", {}⟩
  | some docId =>
      if docId == "" then ⟨500, none, some "Missing documentId", {}⟩
      else
        match auth with
        | .missingHeader => ⟨401, none, some "Unauthorized", {}⟩
        | .notBearer => ⟨401, none, some "Unauthorized", {}⟩
        | .invalidToken =>
            ⟨500, none, some "invalid token",
              { fileUpdates :=
                  if (db.files.lookup docId).isSome then
                    [(docId, .statusFailed)]
                  else [] }⟩
        | .valid uid _ =>
            match db.files.lookup docId with
            | none =>
                ⟨500, none,
                  some ("File document " ++ docId ++ " not found"), {}⟩
            | some fd =>
                if fd.userId == uid then
                  if fd.isChatReady then
                    ⟨200, some (fd.summary.getD "Summary not found."),
                      none, {}⟩
                  else
                    match fd.pdfPath with
                    | none =>
                        ⟨500, none, some "PDF path not found in document",
                          { fileUpdates := [(docId, .statusFailed)] }⟩
                    | some path =>
                        match pdfPages path with
                        | none =>
                            ⟨500, none, some "download failed",
                              { fileUpdates := [(docId, .statusFailed)] }⟩
                        | some pages =>
                            let full_text := extractText pages
                            if full_text.trim == "" then
                              ⟨200,
                                some "No text could be extracted from this document.",
                                none,
                                { downloaded := true,
                                  contentWrites := [(docId, "")],
                                  fileUpdates := [(docId,
                                    .summaryReady "No text could be extracted from this document.")] }⟩
                            else if !geminiKey then
                              ⟨500, none,
                                some "GEMINI_API_KEY environment variable not set",
                                { downloaded := true,
                                  fileUpdates := [(docId, .statusFailed)] }⟩
                            else
                              let summary := gemini (summaryPromptCapped full_text)
                              ⟨200, some summary, none,
                                { downloaded := true, geminiCalled := true,
                                  contentWrites := [(docId, full_text)],
                                  fileUpdates := [(docId, .summaryReady summary)] }⟩
                else ⟨403, none, some "Forbidden", {}⟩

/-- `prepare_chat_session(request)`, translated from
`prepare_chat_service/main.py`.  The only gate is the App Check token
(401 on failure); the handler never verifies a caller identity and has
no ownership check.  A missing `files` document raises and the `except`
block then attempts the `chatStatus = 'failed'` update, which itself
fails on a missing document, so no write lands. -/
def prepare_chat_session (appCheckOk : Bool) (docIdOpt : Option String)
    (db : DocDb) (pdfPages : String → Option (List String))
    (gemini : String → String) : DocResult :=
  if !appCheckOk then ⟨401, none, some "Unauthorized", {}⟩
  else
    match docIdOpt with
    | none => ⟨500, none, some "missing data.documentId", {}⟩
    | some docId =>
        match db.files.lookup docId with
        | none =>
            ⟨500, none,
              some ("File document " ++ docId ++ " not found."), {}⟩
        | some fd =>
            if fd.isChatReady then
              ⟨200, some (fd.summary.getD "Summary not found."), none, {}⟩
            else
              match fd.pdfPath with
              | none =>
                  ⟨500, none, some "PDF path not found.",
                    { fileUpdates := [(docId, .statusFailed)] }⟩
              | some path =>
                  match pdfPages path with
                  | none =>
                      ⟨500, none, some "download failed",
                        { fileUpdates := [(docId, .statusFailed)] }⟩
                  | some pages =>
                      let full_text := extractText pages
                      if full_text.trim == "" then
                        ⟨200,
                          some "No text could be extracted from this document.",
                          none,
                          { downloaded := true,
                            contentWrites := [(docId, "")],
                            fileUpdates := [(docId,
                              .summaryReady "No text could be extracted from this document.")] }⟩
                      else
                        let summary := gemini (summaryPromptFull full_text)
                        ⟨200, some summary, none,
                          { downloaded := true, geminiCalled := true,
                            contentWrites := [(docId, full_text)],
                            fileUpdates := [(docId, .summaryReady summary)] }⟩

end Docs

namespace Conv

/-- The two converter families of `conversion_service/main.py`. -/
inductive HandlerKind where
  | ocrImage
  | office
deriving DecidableEq, Repr

/-- The `FILE_HANDLERS` dispatch table, keyed by lower-cased extension. -/
def FILE_HANDLERS : List (String × HandlerKind) :=
  [(".jpeg", .ocrImage), (".jpg", .ocrImage), (".png", .ocrImage),
   (".txt", .office), (".docx", .office), (".csv", .office),
   (".xlsx", .office), (".pptx", .office)]

/-- `pat` occurs as a contiguous run inside `cs`. -/
def listHasInfix (pat : List Char) : List Char → Bool
  | [] => decide (pat = [])
  | c :: rest => pat.isPrefixOf (c :: rest) || listHasInfix pat rest

/-- Python substring containment (`pat in s`). -/
def strContains (s pat : String) : Bool := listHasInfix pat.data s.data

/-- Python `s.startswith(pat)`. -/
def strStartsWith (s pat : String) : Bool := pat.data.isPrefixOf s.data

/-- `os.path.basename`: the part after the last `/`. -/
def pyBasename (p : String) : String :=
  String.mk ((p.data.reverse.takeWhile (fun c => !(c == '/'))).reverse)

/-- Index of the last occurrence of `c` in `cs`, if any. -/
def lastIdxOf (c : Char) (cs : List Char) : Option Nat :=
  match cs.reverse.findIdx? (fun x => x == c) with
  | none => none
  | some j => some (cs.length - 1 - j)

/-- `os.path.splitext(b)[1]` for a basename `b`: the suffix from the last
dot, unless every character before that dot is itself a dot (CPython
treats leading dots as part of the root). -/
def pySplitextExt (b : String) : String :=
  match lastIdxOf '.' b.data with
  | none => ""
  | some i =>
      if (b.data.take i).all (fun x => x == '.') then ""
      else String.mk (b.data.drop i)

/-- `os.path.splitext(b)[0]` for a basename `b`. -/
def pySplitextRoot (b : String) : String :=
  match lastIdxOf '.' b.data with
  | none => b
  | some i =>
      if (b.data.take i).all (fun x => x == '.') then b
      else String.mk (b.data.take i)

/-- `file_path.split('/')[1]`, defaulting to `""` when absent (the code
only reaches it for paths starting with `uploads/`): the run of
characters between the first slash and the next one. -/
def pySplitIdx1 (p : String) : String :=
  match p.data.dropWhile (fun c => !(c == '/')) with
  | [] => ""
  | _ :: rest => String.mk (rest.takeWhile (fun c => !(c == '/')))

/-- `.lower()` restricted to the ASCII mapping that Python applies to
the extensions at issue. -/
def lowerStr (s : String) : String := String.mk (s.data.map Char.toLower)

/-- The environment one `process_file_to_pdf` event runs against:
the blob metadata correlation id, whether `files/{docId}` exists, and
whether the download/convert step or the upload step raises (with the
exception message). -/
structure ConvWorld where
  docId : Option String
  docExists : Bool
  downloadError : Option String := none
  convError : Option String := none
  uploadError : Option String := none
deriving DecidableEq, Repr

/-- Which return point of `process_file_to_pdf` the event reached. -/
inductive ConvOutcome where
  | ignored
  | noDocId
  | docMissing
  | unsupported
  | completed (dest : String)
  | errored (msg : String)
deriving DecidableEq, Repr

/-- Observable side effects of one `process_file_to_pdf` event. -/
structure ConvEffects where
  downloaded : Bool := false
  converterInvoked : Option HandlerKind := none
  uploadedTo : Option String := none
  statusWrites : List (String × String) := []
deriving DecidableEq, Repr

/-- `process_file_to_pdf(cloud_event)`, translated from
`conversion_service/main.py`.  The guard is
`'processed/' in file_path or not file_path.startswith('uploads/')`;
a falsy `firestoreDocId` (absent key or empty string) aborts silently;
a missing `files` document is skipped; an unregistered extension writes
status `Unsupported file type` and stops; otherwise the file is
downloaded, converted, uploaded to
`processed/{userId}/{base}.pdf`, and the record is marked `Completed`
(or `Error` with the exception message on any failure). -/
def process_file_to_pdf (file_path : String) (w : ConvWorld) :
    ConvOutcome × ConvEffects :=
  if strContains file_path "processed/" ||
      !(strStartsWith file_path "uploads/") then
    (.ignored, {})
  else
    match w.docId with
    | none => (.noDocId, {})
    | some d =>
        if d == "" then (.noDocId, {})
        else if !w.docExists then (.docMissing, {})
        else
          let base := pyBasename file_path
          let ext := lowerStr (pySplitextExt base)
          match FILE_HANDLERS.lookup ext with
          | none =>
              (.unsupported,
                { statusWrites := [(d, "Unsupported file type")] })
          | some hk =>
              match w.downloadError with
              | some msg =>
                  (.errored msg, { statusWrites := [(d, "Error")] })
              | none =>
                  match w.convError with
                  | some msg =>
                      (.errored msg,
                        { downloaded := true, converterInvoked := some hk,
                          statusWrites := [(d, "Error")] })
                  | none =>
                      let dest := "processed/" ++ pySplitIdx1 file_path ++
                        "/" ++ pySplitextRoot base ++ ".pdf"
                      match w.uploadError with
                      | some msg =>
                          (.errored msg,
                            { downloaded := true,
                              converterInvoked := some hk,
                              statusWrites := [(d, "Error")] })
                      | none =>
                          (.completed dest,
                            { downloaded := true,
                              converterInvoked := some hk,
                              uploadedTo := some dest,
                              statusWrites := [(d, "Completed")] })

end Conv

namespace Thumb

/-- `zoom = min(THUMBNAIL_SIZE[0]/page_width, THUMBNAIL_SIZE[1]/page_height)`
with `THUMBNAIL_SIZE = (200, 280)`, over exact rationals. -/
def thumb_zoom (W H : ℚ) : ℚ := min (200 / W) (280 / H)

/-- Width of the page rendered at the uniform zoom. -/
def raster_w (W H : ℚ) : ℚ := W * thumb_zoom W H

/-- Height of the page rendered at the uniform zoom. -/
def raster_h (W H : ℚ) : ℚ := H * thumb_zoom W H

/-- `x_offset = (THUMBNAIL_SIZE[0] - img_width) // 2` for an integer
raster width. -/
def x_offset (iw : Nat) : Nat := (200 - iw) / 2

/-- `y_offset = (THUMBNAIL_SIZE[1] - img_height) // 2`. -/
def y_offset (ih : Nat) : Nat := (280 - ih) / 2

/-- The horizontal margin on the right of the pasted raster. -/
def right_margin (iw : Nat) : Nat := 200 - iw - x_offset iw

/-- The vertical margin below the pasted raster. -/
def bottom_margin (ih : Nat) : Nat := 280 - ih - y_offset ih

end Thumb

namespace DeleteFile

/-- A `files` document as read by `delete_file_service/main.py`. -/
structure FileDoc where
  userId : String
  storagePath : Option String := none
  pdfPath : Option String := none
deriving DecidableEq, Repr

/-- The state the delete handler runs against: the `files` collection and
which storage paths currently hold a blob. -/
structure World where
  files : List (String × FileDoc)
  blobExists : String → Bool

/-- Deletions performed by one `delete_file` invocation. -/
structure Effects where
  blobDeletes : List String := []
  docDeletes : List String := []
deriving DecidableEq, Repr

/-- HTTP result of `delete_file`. -/
structure Result where
  status : Nat
  message : String
  eff : Effects := {}
deriving DecidableEq, Repr

/-- `delete_file(request)`, translated from `delete_file_service/main.py`.
A missing or malformed `Authorization` header raises
`ValueError("Unauthorized")` and an unverifiable token raises from
`verify_id_token`; the handler has a single broad `except`, so both
become 500 INTERNAL.  An ownership mismatch raises `PermissionError`,
likewise 500.  On success the existing original and PDF blobs and the
Firestore document are deleted. -/
def delete_file (auth : AuthResult) (docIdOpt : Option String)
    (w : World) : Result :=
  match auth with
  | .missingHeader => ⟨500, "Backend Error: ValueError - Unauthorized", {}⟩
  | .notBearer => ⟨500, "Backend Error: ValueError - Unauthorized", {}⟩
  | .invalidToken =>
      ⟨500, "Backend Error: InvalidIdTokenError - invalid token", {}⟩
  | .valid uid _ =>
      match docIdOpt with
      | none => ⟨500, "Backend Error: KeyError - documentId", {}⟩
      | some docId =>
          match w.files.lookup docId with
          | none =>
              ⟨500,
                "Backend Error: FileNotFoundError - File record not found.",
                {}⟩
          | some fd =>
              if fd.userId == uid then
                let dels :=
                  (match fd.storagePath with
                    | some p => if w.blobExists p then [p] else []
                    | none => []) ++
                  (match fd.pdfPath with
                    | some p => if w.blobExists p then [p] else []
                    | none => [])
                ⟨200, "File deleted successfully.",
                  { blobDeletes := dels, docDeletes := [docId] }⟩
              else
                ⟨500,
                  "Backend Error: PermissionError - User does not have permission to delete this file.",
                  {}⟩

end DeleteFile

namespace Subscription

/-- A created Razorpay order, as returned to the client. -/
structure Order where
  id : String
  amount : Nat
  currency : String
deriving DecidableEq, Repr

/-- HTTP result of `create_subscription_order`. -/
structure Result where
  status : Nat
  orderId : Option String := none
  message : String := ""
deriving DecidableEq, Repr

/-- `create_subscription_order(request)`, translated from
`subscription_service/main.py`.  The handler has a single broad
`except`, so every failure — the `ValueError("Unauthorized")` of the
header check, a `verify_id_token` exception, or a gateway error — is a
500 INTERNAL.  `createOrder` abstracts the secret fetch and the
Razorpay order-create call (`.error` = raise). -/
def create_subscription_order (auth : AuthResult)
    (createOrder : Except String Order) : Result :=
  match auth with
  | .missingHeader =>
      ⟨500, none, "Backend Error: ValueError - Unauthorized"⟩
  | .notBearer =>
      ⟨500, none, "Backend Error: ValueError - Unauthorized"⟩
  | .invalidToken =>
      ⟨500, none, "Backend Error: InvalidIdTokenError - invalid token"⟩
  | .valid _ _ =>
      match createOrder with
      | .error msg => ⟨500, none, msg⟩
      | .ok o => ⟨200, some o.id, ""⟩

end Subscription

namespace Payment

/-- The payload of `verify_payment`: the three keys the handler reads
from `data` (a missing key is a `KeyError`). -/
structure PayPayload where
  orderId : String
  paymentId : String
  signature : String
deriving DecidableEq, Repr

/-- Payment details fetched from the gateway. -/
structure PaymentDetails where
  status : String
  orderId : String
deriving DecidableEq, Repr

/-- The subscription fields `verify_payment` writes on success. -/
structure SubWrite where
  uid : String
  isSubscribed : Bool
  subscriptionType : String
deriving DecidableEq, Repr

/-- HTTP result of `verify_payment`. -/
structure Result where
  status : Nat
  errStatus : Option String := none
  message : String := ""
  userWrites : List SubWrite := []
deriving DecidableEq, Repr

/-- `verify_payment(request)`, translated from
`verify_payment_service/main.py`.  The header check raises
`ValueError("Unauthorized")`, which the dedicated `except ValueError`
turns into 400 INVALID_ARGUMENT; a token `verify_id_token` rejects
raises a Firebase error that only the broad `except` catches, hence 500
INTERNAL.  Gateway failures are re-raised as `ValueError`, hence 400.
`fetchPayment` abstracts the gateway lookup (`.error` = raise). -/
def verify_payment (auth : AuthResult) (payload : Option PayPayload)
    (keyConfigured : Bool)
    (fetchPayment : Except String PaymentDetails) : Result :=
  match auth with
  | .missingHeader => ⟨400, some "INVALID_ARGUMENT", "Unauthorized", []⟩
  | .notBearer => ⟨400, some "INVALID_ARGUMENT", "Unauthorized", []⟩
  | .invalidToken =>
      ⟨500, some "INTERNAL",
        "Backend Error: InvalidIdTokenError - invalid token", []⟩
  | .valid uid _ =>
      match payload with
      | none => ⟨500, some "INTERNAL", "Backend Error: KeyError - data", []⟩
      | some pl =>
          if !keyConfigured then
            ⟨400, some "INVALID_ARGUMENT", "Razorpay Key ID not configured",
              []⟩
          else
            match fetchPayment with
            | .error msg =>
                ⟨400, some "INVALID_ARGUMENT",
                  "Payment verification failed: " ++ msg, []⟩
            | .ok pd =>
                if !(pd.status == "captured") then
                  ⟨400, some "INVALID_ARGUMENT",
                    "Payment status is " ++ pd.status ++
                      ", expected captured", []⟩
                else if !(pd.orderId == pl.orderId) then
                  ⟨400, some "INVALID_ARGUMENT", "Order ID mismatch", []⟩
                else
                  ⟨200, none, "Subscription activated successfully.",
                    [⟨uid, true, "premium_yearly"⟩]⟩

end Payment

namespace Download

/-- A `files` document as read by `get_download_url_service/main.py`. -/
structure FileDoc where
  userId : String
  pdfPath : Option String := none
deriving DecidableEq, Repr

/-- The state the download-url handler runs against: the `files`
collection, blob existence, and the URL signer as a black box. -/
structure World where
  files : List (String × FileDoc)
  blobExists : String → Bool
  signedUrl : String → String

/-- HTTP result of `get_download_url`. -/
structure Result where
  status : Nat
  errStatus : Option String := none
  url : Option String := none
deriving DecidableEq, Repr

/-- `get_download_url(request)`, translated from
`get_download_url_service/main.py`.  A missing or malformed header
returns an inline 401 UNAUTHORIZED; a token `verify_id_token` rejects
raises `auth.InvalidIdTokenError`, which the dedicated `except` clause
also turns into 401.  Bad payload → 400, missing document / PDF path /
blob → 404, foreign owner → 403, else 200 with a signed URL. -/
def get_download_url (auth : AuthResult) (docIdOpt : Option String)
    (w : World) : Result :=
  match auth with
  | .missingHeader => ⟨401, some "UNAUTHORIZED", none⟩
  | .notBearer => ⟨401, some "UNAUTHORIZED", none⟩
  | .invalidToken => ⟨401, some "UNAUTHORIZED", none⟩
  | .valid uid _ =>
      match docIdOpt with
      | none => ⟨400, some "BAD_REQUEST", none⟩
      | some docId =>
          if docId == "" then ⟨400, some "BAD_REQUEST", none⟩
          else
            match w.files.lookup docId with
            | none => ⟨404, some "NOT_FOUND", none⟩
            | some fd =>
                if fd.userId == uid then
                  match fd.pdfPath with
                  | none => ⟨404, some "NOT_FOUND", none⟩
                  | some p =>
                      if w.blobExists p then ⟨200, none, some (w.signedUrl p)⟩
                      else ⟨404, some "NOT_FOUND", none⟩
                else ⟨403, some "FORBIDDEN", none⟩

end Download

open Allowance Docs Conv Thumb

/-- A string append whose right part is nonempty is nonempty. -/
theorem str_append_ne_empty_r (s t : String) (h : 0 < t.length) :
    s ++ t ≠ "" := by
  intro he
  have hl := congrArg String.length he
  rw [String.length_append] at hl
  have h0 : ("" : String).length = 0 := rfl
  rw [h0] at hl
  omega

/-- Cache lookup hit within the TTL: the cached count is returned and the
cache is untouched. -/
theorem get_cached_hit (cache : List (String × CacheEntry)) (uid : String)
    (now : Int) (e : CacheEntry) (hl : cache.lookup uid = some e)
    (ht : now - e.timestamp < CACHE_TTL_SECONDS) :
    get_cached_upload_count cache uid now = (some e.count, cache) := by
  simp [get_cached_upload_count, hl, ht]

/-- Cache lookup at or past the TTL: the entry is deleted and a miss is
reported. -/
theorem get_cached_expired (cache : List (String × CacheEntry)) (uid : String)
    (now : Int) (e : CacheEntry) (hl : cache.lookup uid = some e)
    (ht : ¬ now - e.timestamp < CACHE_TTL_SECONDS) :
    get_cached_upload_count cache uid now =
      (none, cache.eraseP (fun p => p.1 == uid)) := by
  simp [get_cached_upload_count, hl, ht]

/-- A freshly written cache entry is found by lookup. -/
theorem lookup_cache_upload_count (cache : List (String × CacheEntry))
    (uid : String) (count : Nat) (now : Int) :
    (cache_upload_count cache uid count now).lookup uid = some ⟨count, now⟩ := by
  simp [cache_upload_count, List.lookup]

/-- On a cache miss for a non-subscribed existing profile, the handler
runs the capped count query, writes it back, and decides against the
limit. -/
theorem cua_miss_eq (limit : Nat) (uid email : String) (st : UAState)
    (now : Int) (prof : UserProfile)
    (hp : st.users.lookup uid = some prof)
    (hsub : prof.isSubscribed = false)
    (hmiss : (get_cached_upload_count st.cache uid now).1 = none) :
    check_upload_allowance limit (.valid uid email) st now =
      (if countQuery st.files uid now limit < limit then
        ⟨200, some true,
          "Usage (" ++ toString (countQuery st.files uid now limit) ++ "/" ++
            toString limit ++ ") is within the free limit.",
          { st with cache := (cache_upload_count
              (get_cached_upload_count st.cache uid now).2 uid
              (countQuery st.files uid now limit) now) },
          { dbCountQuery := true }⟩
      else
        ⟨200, some false,
          "Weekly upload limit of " ++ toString limit ++
            " files has been reached.",
          { st with cache := (cache_upload_count
              (get_cached_upload_count st.cache uid now).2 uid
              (countQuery st.files uid now limit) now) },
          { dbCountQuery := true }⟩) := by
  simp only [check_upload_allowance, hp, hsub, Bool.false_eq_true, if_false,
    hmiss]

/-- On a valid cache hit for a non-subscribed existing profile, the cached
count is used as-is and no count query runs. -/
theorem cua_hit_eq (limit : Nat) (uid email : String) (st : UAState)
    (now : Int) (prof : UserProfile) (c : Nat)
    (hp : st.users.lookup uid = some prof)
    (hsub : prof.isSubscribed = false)
    (hhit : (get_cached_upload_count st.cache uid now).1 = some c) :
    check_upload_allowance limit (.valid uid email) st now =
      (if c < limit then
        ⟨200, some true,
          "Usage (" ++ toString c ++ "/" ++ toString limit ++
            ") is within the free limit.",
          { st with cache := (get_cached_upload_count st.cache uid now).2 },
          { dbCountQuery := false }⟩
      else
        ⟨200, some false,
          "Weekly upload limit of " ++ toString limit ++
            " files has been reached.",
          { st with cache := (get_cached_upload_count st.cache uid now).2 },
          { dbCountQuery := false }⟩) := by
  simp only [check_upload_allowance, hp, hsub, Bool.false_eq_true, if_false,
    hhit]

/-- The allowance decision in compact form: on a cache miss it is the
capped count compared against the limit. -/
theorem cua_miss_allow (limit : Nat) (uid email : String) (st : UAState)
    (now : Int) (prof : UserProfile)
    (hp : st.users.lookup uid = some prof)
    (hsub : prof.isSubscribed = false)
    (hmiss : (get_cached_upload_count st.cache uid now).1 = none) :
    (check_upload_allowance limit (.valid uid email) st now).allow =
      some (decide (countQuery st.files uid now limit < limit)) := by
  rw [cua_miss_eq limit uid email st now prof hp hsub hmiss]
  by_cases h : countQuery st.files uid now limit < limit
  · simp [h]
  · simp [h]

/-- The post-state on a cache miss: only the cache changes, receiving the
fresh capped count stamped `now`. -/
theorem cua_miss_state (limit : Nat) (uid email : String) (st : UAState)
    (now : Int) (prof : UserProfile)
    (hp : st.users.lookup uid = some prof)
    (hsub : prof.isSubscribed = false)
    (hmiss : (get_cached_upload_count st.cache uid now).1 = none) :
    (check_upload_allowance limit (.valid uid email) st now).state =
      { st with cache := (cache_upload_count
          (get_cached_upload_count st.cache uid now).2 uid
          (countQuery st.files uid now limit) now) } := by
  rw [cua_miss_eq limit uid email st now prof hp hsub hmiss]
  by_cases h : countQuery st.files uid now limit < limit
  · simp [h]
  · simp [h]

/-- On a cache miss the database count query runs. -/
theorem cua_miss_query (limit : Nat) (uid email : String) (st : UAState)
    (now : Int) (prof : UserProfile)
    (hp : st.users.lookup uid = some prof)
    (hsub : prof.isSubscribed = false)
    (hmiss : (get_cached_upload_count st.cache uid now).1 = none) :
    (check_upload_allowance limit (.valid uid email) st now).effects.dbCountQuery
      = true := by
  rw [cua_miss_eq limit uid email st now prof hp hsub hmiss]
  by_cases h : countQuery st.files uid now limit < limit
  · simp [h]
  · simp [h]

/-- Decision on a cache hit. -/
theorem cua_hit_allow (limit : Nat) (uid email : String) (st : UAState)
    (now : Int) (prof : UserProfile) (c : Nat)
    (hp : st.users.lookup uid = some prof)
    (hsub : prof.isSubscribed = false)
    (hhit : (get_cached_upload_count st.cache uid now).1 = some c) :
    (check_upload_allowance limit (.valid uid email) st now).allow =
      some (decide (c < limit)) := by
  rw [cua_hit_eq limit uid email st now prof c hp hsub hhit]
  by_cases h : c < limit
  · simp [h]
  · simp [h]

/-- Post-state on a cache hit. -/
theorem cua_hit_state (limit : Nat) (uid email : String) (st : UAState)
    (now : Int) (prof : UserProfile) (c : Nat)
    (hp : st.users.lookup uid = some prof)
    (hsub : prof.isSubscribed = false)
    (hhit : (get_cached_upload_count st.cache uid now).1 = some c) :
    (check_upload_allowance limit (.valid uid email) st now).state =
      { st with cache := (get_cached_upload_count st.cache uid now).2 } := by
  rw [cua_hit_eq limit uid email st now prof c hp hsub hhit]
  by_cases h : c < limit
  · simp [h]
  · simp [h]

/-- No database count query on a cache hit. -/
theorem cua_hit_query (limit : Nat) (uid email : String) (st : UAState)
    (now : Int) (prof : UserProfile) (c : Nat)
    (hp : st.users.lookup uid = some prof)
    (hsub : prof.isSubscribed = false)
    (hhit : (get_cached_upload_count st.cache uid now).1 = some c) :
    (check_upload_allowance limit (.valid uid email) st now).effects.dbCountQuery
      = false := by
  rw [cua_hit_eq limit uid email st now prof c hp hsub hhit]
  by_cases h : c < limit
  · simp [h]
  · simp [h]

/-- C1: for every non-subscribed caller with an existing profile whose
7-day FileRecord count is `N` and configured limit `L`, the handler
allows iff `N < L`, denies at `N = L`, and both outcomes carry a
nonempty reason string.  (The cache-miss hypothesis selects the count
path the claim describes; the cached path is the subject of C4.) -/
theorem c1_nonsub_allow_iff_under_limit (limit : Nat) (uid email : String)
    (st : UAState) (now : Int) (prof : UserProfile)
    (hp : st.users.lookup uid = some prof)
    (hsub : prof.isSubscribed = false)
    (hmiss : (get_cached_upload_count st.cache uid now).1 = none) :
    (check_upload_allowance limit (.valid uid email) st now).status = 200 ∧
    ((check_upload_allowance limit (.valid uid email) st now).allow = some true
      ↔ weekCount st.files uid now < limit) ∧
    (weekCount st.files uid now = limit →
      (check_upload_allowance limit (.valid uid email) st now).allow =
        some false) ∧
    (check_upload_allowance limit (.valid uid email) st now).reason ≠ "" := by
  have hall := cua_miss_allow limit uid email st now prof hp hsub hmiss
  have heq := cua_miss_eq limit uid email st now prof hp hsub hmiss
  have hq : countQuery st.files uid now limit =
      min (weekCount st.files uid now) (limit + 1) := rfl
  refine ⟨?_, ?_, ?_, ?_⟩
  · rw [heq]
    by_cases h : countQuery st.files uid now limit < limit <;> simp [h]
  · rw [hall]
    simp only [Option.some.injEq, decide_eq_true_eq]
    rw [hq]
    constructor
    · intro h
      omega
    · intro h
      omega
  · intro hN
    rw [hall]
    have h : ¬ countQuery st.files uid now limit < limit := by
      rw [hq]
      omega
    simp [h]
  · rw [heq]
    by_cases h : countQuery st.files uid now limit < limit
    · rw [if_pos h]
      exact str_append_ne_empty_r _ _ (by decide)
    · rw [if_neg h]
      exact str_append_ne_empty_r _ _ (by decide)

/-- C1 witness: limit 5, a non-subscribed profile with exactly 5 uploads
in the window is denied. -/
theorem c1_witness :
    (((⟨[("u", ⟨"e", false, "free"⟩)],
        [⟨"u", 999999⟩, ⟨"u", 999998⟩, ⟨"u", 999997⟩, ⟨"u", 999996⟩,
          ⟨"u", 999995⟩], []⟩ : UAState).users.lookup "u" =
        some ⟨"e", false, "free"⟩) ∧
      ((⟨"e", false, "free"⟩ : UserProfile).isSubscribed = false) ∧
      ((get_cached_upload_count
          ([] : List (String × CacheEntry)) "u" 1000000).1 = none)) ∧
    ((check_upload_allowance 5 (.valid "u" "e")
        ⟨[("u", ⟨"e", false, "free"⟩)],
          [⟨"u", 999999⟩, ⟨"u", 999998⟩, ⟨"u", 999997⟩, ⟨"u", 999996⟩,
            ⟨"u", 999995⟩], []⟩ 1000000).status = 200 ∧
      ((check_upload_allowance 5 (.valid "u" "e")
          ⟨[("u", ⟨"e", false, "free"⟩)],
            [⟨"u", 999999⟩, ⟨"u", 999998⟩, ⟨"u", 999997⟩, ⟨"u", 999996⟩,
              ⟨"u", 999995⟩], []⟩ 1000000).allow = some true
        ↔ weekCount [⟨"u", 999999⟩, ⟨"u", 999998⟩, ⟨"u", 999997⟩,
            ⟨"u", 999996⟩, ⟨"u", 999995⟩] "u" 1000000 < 5) ∧
      (weekCount [⟨"u", 999999⟩, ⟨"u", 999998⟩, ⟨"u", 999997⟩,
          ⟨"u", 999996⟩, ⟨"u", 999995⟩] "u" 1000000 = 5 →
        (check_upload_allowance 5 (.valid "u" "e")
          ⟨[("u", ⟨"e", false, "free"⟩)],
            [⟨"u", 999999⟩, ⟨"u", 999998⟩, ⟨"u", 999997⟩, ⟨"u", 999996⟩,
              ⟨"u", 999995⟩], []⟩ 1000000).allow = some false) ∧
      (check_upload_allowance 5 (.valid "u" "e")
        ⟨[("u", ⟨"e", false, "free"⟩)],
          [⟨"u", 999999⟩, ⟨"u", 999998⟩, ⟨"u", 999997⟩, ⟨"u", 999996⟩,
            ⟨"u", 999995⟩], []⟩ 1000000).reason ≠ "") :=
  ⟨⟨by decide, by decide, by decide⟩,
    c1_nonsub_allow_iff_under_limit 5 "u" "e"
      ⟨[("u", ⟨"e", false, "free"⟩)],
        [⟨"u", 999999⟩, ⟨"u", 999998⟩, ⟨"u", 999997⟩, ⟨"u", 999996⟩,
          ⟨"u", 999995⟩], []⟩ 1000000 ⟨"e", false, "free"⟩
      (by decide) (by decide) (by decide)⟩

/-- C5: a caller with no profile gets exactly one default profile
(not subscribed, free tier) and an immediate allow, with no 7-day count
query. -/
theorem c5_new_user_bootstrap (limit : Nat) (uid email : String)
    (st : UAState) (now : Int)
    (hp : st.users.lookup uid = none) :
    (check_upload_allowance limit (.valid uid email) st now).status = 200 ∧
    (check_upload_allowance limit (.valid uid email) st now).allow =
      some true ∧
    (check_upload_allowance limit (.valid uid email) st now).reason =
      "New user profile created." ∧
    (check_upload_allowance limit (.valid uid email) st now).effects.profileCreated
      = some (uid, ⟨email, false, "free"⟩) ∧
    (check_upload_allowance limit (.valid uid email) st now).state.users =
      (uid, ⟨email, false, "free"⟩) :: st.users ∧
    (check_upload_allowance limit (.valid uid email) st now).effects.dbCountQuery
      = false := by
  simp [check_upload_allowance, hp]

/-- C5 witness. -/
theorem c5_witness :
    ((⟨[], [], []⟩ : UAState).users.lookup "u" = none) ∧
    ((check_upload_allowance 5 (.valid "u" "e") ⟨[], [], []⟩ 0).status = 200 ∧
      (check_upload_allowance 5 (.valid "u" "e") ⟨[], [], []⟩ 0).allow =
        some true ∧
      (check_upload_allowance 5 (.valid "u" "e") ⟨[], [], []⟩ 0).reason =
        "New user profile created." ∧
      (check_upload_allowance 5 (.valid "u" "e") ⟨[], [], []⟩ 0).effects.profileCreated
        = some ("u", ⟨"e", false, "free"⟩) ∧
      (check_upload_allowance 5 (.valid "u" "e") ⟨[], [], []⟩ 0).state.users =
        ("u", ⟨"e", false, "free"⟩) :: ([] : List (String × UserProfile)) ∧
      (check_upload_allowance 5 (.valid "u" "e") ⟨[], [], []⟩ 0).effects.dbCountQuery
        = false) :=
  ⟨by decide, c5_new_user_bootstrap 5 "u" "e" ⟨[], [], []⟩ 0 (by decide)⟩

/-- C10: the capped query count is `min N (L+1)`, is what gets cached, and
the decision it induces coincides with the spec decision from the true
count `N`. -/
theorem c10_capped_count_refines_true_count (limit : Nat) (uid email : String)
    (st : UAState) (now : Int) (prof : UserProfile)
    (hp : st.users.lookup uid = some prof)
    (hsub : prof.isSubscribed = false)
    (hmiss : (get_cached_upload_count st.cache uid now).1 = none) :
    countQuery st.files uid now limit =
      min (weekCount st.files uid now) (limit + 1) ∧
    countQuery st.files uid now limit ≤ limit + 1 ∧
    (check_upload_allowance limit (.valid uid email) st now).state.cache.lookup
      uid = some ⟨countQuery st.files uid now limit, now⟩ ∧
    (check_upload_allowance limit (.valid uid email) st now).allow =
      some (spec_allow_from_true_count (weekCount st.files uid now) limit) := by
  refine ⟨rfl, Nat.min_le_right _ _, ?_, ?_⟩
  · rw [cua_miss_state limit uid email st now prof hp hsub hmiss]
    exact lookup_cache_upload_count _ _ _ _
  · rw [cua_miss_allow limit uid email st now prof hp hsub hmiss]
    have : countQuery st.files uid now limit < limit ↔
        weekCount st.files uid now < limit := by
      have hq : countQuery st.files uid now limit =
          min (weekCount st.files uid now) (limit + 1) := rfl
      rw [hq]
      omega
    rw [spec_allow_from_true_count]
    exact congrArg some (decide_eq_decide.mpr this)

/-- C10 witness: true count 7 with limit 5 caps the cached count at 6 and
still denies. -/
theorem c10_witness :
    (((⟨[("u", ⟨"e", false, "free"⟩)],
        [⟨"u", 999999⟩, ⟨"u", 999998⟩, ⟨"u", 999997⟩, ⟨"u", 999996⟩,
          ⟨"u", 999995⟩, ⟨"u", 999994⟩, ⟨"u", 999993⟩], []⟩ : UAState).users.lookup
        "u" = some ⟨"e", false, "free"⟩) ∧
      ((⟨"e", false, "free"⟩ : UserProfile).isSubscribed = false) ∧
      ((get_cached_upload_count ([] : List (String × CacheEntry)) "u"
          1000000).1 = none)) ∧
    (countQuery [⟨"u", 999999⟩, ⟨"u", 999998⟩, ⟨"u", 999997⟩, ⟨"u", 999996⟩,
        ⟨"u", 999995⟩, ⟨"u", 999994⟩, ⟨"u", 999993⟩] "u" 1000000 5 =
      min (weekCount [⟨"u", 999999⟩, ⟨"u", 999998⟩, ⟨"u", 999997⟩,
        ⟨"u", 999996⟩, ⟨"u", 999995⟩, ⟨"u", 999994⟩, ⟨"u", 999993⟩] "u"
        1000000) (5 + 1) ∧
     countQuery [⟨"u", 999999⟩, ⟨"u", 999998⟩, ⟨"u", 999997⟩, ⟨"u", 999996⟩,
        ⟨"u", 999995⟩, ⟨"u", 999994⟩, ⟨"u", 999993⟩] "u" 1000000 5 ≤ 5 + 1 ∧
     (check_upload_allowance 5 (.valid "u" "e")
        ⟨[("u", ⟨"e", false, "free"⟩)],
          [⟨"u", 999999⟩, ⟨"u", 999998⟩, ⟨"u", 999997⟩, ⟨"u", 999996⟩,
            ⟨"u", 999995⟩, ⟨"u", 999994⟩, ⟨"u", 999993⟩], []⟩
        1000000).state.cache.lookup "u" =
       some ⟨countQuery [⟨"u", 999999⟩, ⟨"u", 999998⟩, ⟨"u", 999997⟩,
          ⟨"u", 999996⟩, ⟨"u", 999995⟩, ⟨"u", 999994⟩, ⟨"u", 999993⟩] "u"
          1000000 5, 1000000⟩ ∧
     (check_upload_allowance 5 (.valid "u" "e")
        ⟨[("u", ⟨"e", false, "free"⟩)],
          [⟨"u", 999999⟩, ⟨"u", 999998⟩, ⟨"u", 999997⟩, ⟨"u", 999996⟩,
            ⟨"u", 999995⟩, ⟨"u", 999994⟩, ⟨"u", 999993⟩], []⟩ 1000000).allow =
       some (spec_allow_from_true_count
         (weekCount [⟨"u", 999999⟩, ⟨"u", 999998⟩, ⟨"u", 999997⟩,
           ⟨"u", 999996⟩, ⟨"u", 999995⟩, ⟨"u", 999994⟩, ⟨"u", 999993⟩] "u"
           1000000) 5)) :=
  ⟨⟨by decide, by decide, by decide⟩,
    c10_capped_count_refines_true_count 5 "u" "e"
      ⟨[("u", ⟨"e", false, "free"⟩)],
        [⟨"u", 999999⟩, ⟨"u", 999998⟩, ⟨"u", 999997⟩, ⟨"u", 999996⟩,
          ⟨"u", 999995⟩, ⟨"u", 999994⟩, ⟨"u", 999993⟩], []⟩ 1000000
      ⟨"e", false, "free"⟩ (by decide) (by decide) (by decide)⟩

/-- C4: after a miss populates the cache, a second check strictly within
the TTL runs no count query, decides from the cached count (same
decision), and leaves the state unchanged; at or past the TTL the entry
is treated as absent, the database is re-queried and the fresh count is
written back stamped with the new time. -/
theorem c4_cache_roundtrip (limit : Nat) (uid email : String) (st : UAState)
    (t1 t2 : Int) (prof : UserProfile)
    (hp : st.users.lookup uid = some prof)
    (hsub : prof.isSubscribed = false)
    (hmiss : (get_cached_upload_count st.cache uid t1).1 = none) :
    (t2 - t1 < CACHE_TTL_SECONDS →
      (check_upload_allowance limit (.valid uid email)
        (check_upload_allowance limit (.valid uid email) st t1).state
        t2).effects.dbCountQuery = false ∧
      (check_upload_allowance limit (.valid uid email)
        (check_upload_allowance limit (.valid uid email) st t1).state
        t2).allow =
        (check_upload_allowance limit (.valid uid email) st t1).allow ∧
      (check_upload_allowance limit (.valid uid email)
        (check_upload_allowance limit (.valid uid email) st t1).state
        t2).state =
        (check_upload_allowance limit (.valid uid email) st t1).state) ∧
    (CACHE_TTL_SECONDS ≤ t2 - t1 →
      (check_upload_allowance limit (.valid uid email)
        (check_upload_allowance limit (.valid uid email) st t1).state
        t2).effects.dbCountQuery = true ∧
      (check_upload_allowance limit (.valid uid email)
        (check_upload_allowance limit (.valid uid email) st t1).state
        t2).state.cache.lookup uid =
        some ⟨countQuery st.files uid t2 limit, t2⟩ ∧
      ((check_upload_allowance limit (.valid uid email)
        (check_upload_allowance limit (.valid uid email) st t1).state
        t2).allow = some true ↔
        countQuery st.files uid t2 limit < limit)) := by
  have hstate1 := cua_miss_state limit uid email st t1 prof hp hsub hmiss
  set st1 := (check_upload_allowance limit (.valid uid email) st t1).state
    with hst1
  have husers : st1.users.lookup uid = some prof := by
    rw [hstate1]
    exact hp
  have hfiles : st1.files = st.files := by
    rw [hstate1]
  have hcache1 : st1.cache.lookup uid =
      some ⟨countQuery st.files uid t1 limit, t1⟩ := by
    rw [hstate1]
    exact lookup_cache_upload_count _ _ _ _
  constructor
  · intro hlt
    have hget : get_cached_upload_count st1.cache uid t2 =
        (some (countQuery st.files uid t1 limit), st1.cache) :=
      get_cached_hit st1.cache uid t2 _ hcache1 hlt
    have hhit : (get_cached_upload_count st1.cache uid t2).1 =
        some (countQuery st.files uid t1 limit) := by
      rw [hget]
    refine ⟨cua_hit_query limit uid email st1 t2 prof _ husers hsub hhit,
      ?_, ?_⟩
    · rw [cua_hit_allow limit uid email st1 t2 prof _ husers hsub hhit,
        cua_miss_allow limit uid email st t1 prof hp hsub hmiss]
    · rw [cua_hit_state limit uid email st1 t2 prof _ husers hsub hhit, hget]
  · intro hge
    have hne : ¬ t2 - (⟨countQuery st.files uid t1 limit, t1⟩ :
        CacheEntry).timestamp < CACHE_TTL_SECONDS := by
      change ¬ t2 - t1 < CACHE_TTL_SECONDS
      omega
    have hexp : get_cached_upload_count st1.cache uid t2 =
        (none, st1.cache.eraseP (fun p => p.1 == uid)) :=
      get_cached_expired st1.cache uid t2 _ hcache1 hne
    have hmiss2 : (get_cached_upload_count st1.cache uid t2).1 = none := by
      rw [hexp]
    refine ⟨cua_miss_query limit uid email st1 t2 prof husers hsub hmiss2,
      ?_, ?_⟩
    · rw [cua_miss_state limit uid email st1 t2 prof husers hsub hmiss2]
      have : countQuery st1.files uid t2 limit =
          countQuery st.files uid t2 limit := by
        rw [hfiles]
      rw [show ({ st1 with cache := (cache_upload_count
          (get_cached_upload_count st1.cache uid t2).2 uid
          (countQuery st1.files uid t2 limit) t2) } : UAState).cache =
          cache_upload_count (get_cached_upload_count st1.cache uid t2).2 uid
          (countQuery st1.files uid t2 limit) t2 from rfl, this]
      exact lookup_cache_upload_count _ _ _ _
    · rw [cua_miss_allow limit uid email st1 t2 prof husers hsub hmiss2,
        hfiles]
      simp

/-- C4 witness. -/
theorem c4_witness :
    (((⟨[("u", ⟨"e", false, "free"⟩)], [⟨"u", -50⟩, ⟨"u", -60⟩],
        []⟩ : UAState).users.lookup "u" = some ⟨"e", false, "free"⟩) ∧
      ((⟨"e", false, "free"⟩ : UserProfile).isSubscribed = false) ∧
      ((get_cached_upload_count ([] : List (String × CacheEntry)) "u" 0).1 =
        none)) ∧
    ((100 - 0 < CACHE_TTL_SECONDS →
      (check_upload_allowance 5 (.valid "u" "e")
        (check_upload_allowance 5 (.valid "u" "e")
          ⟨[("u", ⟨"e", false, "free"⟩)], [⟨"u", -50⟩, ⟨"u", -60⟩], []⟩
          0).state 100).effects.dbCountQuery = false ∧
      (check_upload_allowance 5 (.valid "u" "e")
        (check_upload_allowance 5 (.valid "u" "e")
          ⟨[("u", ⟨"e", false, "free"⟩)], [⟨"u", -50⟩, ⟨"u", -60⟩], []⟩
          0).state 100).allow =
        (check_upload_allowance 5 (.valid "u" "e")
          ⟨[("u", ⟨"e", false, "free"⟩)], [⟨"u", -50⟩, ⟨"u", -60⟩], []⟩
          0).allow ∧
      (check_upload_allowance 5 (.valid "u" "e")
        (check_upload_allowance 5 (.valid "u" "e")
          ⟨[("u", ⟨"e", false, "free"⟩)], [⟨"u", -50⟩, ⟨"u", -60⟩], []⟩
          0).state 100).state =
        (check_upload_allowance 5 (.valid "u" "e")
          ⟨[("u", ⟨"e", false, "free"⟩)], [⟨"u", -50⟩, ⟨"u", -60⟩], []⟩
          0).state) ∧
    (CACHE_TTL_SECONDS ≤ 100 - 0 →
      (check_upload_allowance 5 (.valid "u" "e")
        (check_upload_allowance 5 (.valid "u" "e")
          ⟨[("u", ⟨"e", false, "free"⟩)], [⟨"u", -50⟩, ⟨"u", -60⟩], []⟩
          0).state 100).effects.dbCountQuery = true ∧
      (check_upload_allowance 5 (.valid "u" "e")
        (check_upload_allowance 5 (.valid "u" "e")
          ⟨[("u", ⟨"e", false, "free"⟩)], [⟨"u", -50⟩, ⟨"u", -60⟩], []⟩
          0).state 100).state.cache.lookup "u" =
        some ⟨countQuery [⟨"u", -50⟩, ⟨"u", -60⟩] "u" 100 5, 100⟩ ∧
      ((check_upload_allowance 5 (.valid "u" "e")
        (check_upload_allowance 5 (.valid "u" "e")
          ⟨[("u", ⟨"e", false, "free"⟩)], [⟨"u", -50⟩, ⟨"u", -60⟩], []⟩
          0).state 100).allow = some true ↔
        countQuery [⟨"u", -50⟩, ⟨"u", -60⟩] "u" 100 5 < 5))) :=
  ⟨⟨by decide, by decide, by decide⟩,
    c4_cache_roundtrip 5 "u" "e"
      ⟨[("u", ⟨"e", false, "free"⟩)], [⟨"u", -50⟩, ⟨"u", -60⟩], []⟩ 0 100
      ⟨"e", false, "free"⟩ (by decide) (by decide) (by decide)⟩

/-- C3 counterexample: a request with a missing bearer token to
`check_upload_allowance` is answered with HTTP 500, not 401. -/
theorem c3_counterexample_missing_token_500 :
    (check_upload_allowance 5 .missingHeader ⟨[], [], []⟩ 0).status = 500 ∧
    ¬ (check_upload_allowance 5 .missingHeader ⟨[], [], []⟩ 0).status =
      401 := by
  decide

/-- C3 amended: for a missing or malformed bearer header, chat,
doc-summary and download-url return an inline 401 with no side effect,
`check_upload_allowance`, `delete_file` and `create_subscription_order`
raise into their single broad `except` and return 500 Internal with no
side effect, and `verify_payment`'s dedicated `except ValueError`
returns 400 INVALID_ARGUMENT with no write.  For an unverifiable token,
download-url's dedicated `except auth.InvalidIdTokenError` returns 401,
while the others return 500 — doc-summary performing only its
best-effort `chatStatus = 'failed'` write (it parses the payload before
the auth check; the write lands only when the record exists).
`prepare_chat_session`'s App Check gate returns 401 with no side
effect. -/
theorem c3_amended_auth_failure_behaviour (limit : Nat) (st : UAState)
    (now : Int) (docId question : String) (db : DocDb) (gk : Bool)
    (g : String → String) (pdfPages : String → Option (List String))
    (dw : Download.World) (delw : DeleteFile.World)
    (dOpt : Option String) (co : Except String Subscription.Order)
    (pl : Option Payment.PayPayload) (kc : Bool)
    (fp : Except String Payment.PaymentDetails)
    (pp2 : String → Option (List String)) (g2 : String → String)
    (hd : (docId == "") = false) :
    (chat_with_document .missingHeader docId question db gk g).status =
      401 ∧
    (chat_with_document .missingHeader docId question db gk g).eff =
      ({} : DocEffects) ∧
    (chat_with_document .notBearer docId question db gk g).status = 401 ∧
    (chat_with_document .invalidToken docId question db gk g).status =
      500 ∧
    (chat_with_document .invalidToken docId question db gk g).eff =
      ({} : DocEffects) ∧
    (generate_doc_summary (some docId) .missingHeader db pdfPages gk
      g).status = 401 ∧
    (generate_doc_summary (some docId) .missingHeader db pdfPages gk
      g).eff = ({} : DocEffects) ∧
    (generate_doc_summary (some docId) .notBearer db pdfPages gk
      g).status = 401 ∧
    (generate_doc_summary (some docId) .invalidToken db pdfPages gk
      g).status = 500 ∧
    (generate_doc_summary (some docId) .invalidToken db pdfPages gk
      g).eff =
      { fileUpdates :=
          if (db.files.lookup docId).isSome then [(docId, .statusFailed)]
          else [] } ∧
    prepare_chat_session false dOpt db pp2 g2 =
      ⟨401, none, some "Unauthorized", {}⟩ ∧
    Download.get_download_url .missingHeader dOpt dw =
      ⟨401, some "UNAUTHORIZED", none⟩ ∧
    Download.get_download_url .notBearer dOpt dw =
      ⟨401, some "UNAUTHORIZED", none⟩ ∧
    Download.get_download_url .invalidToken dOpt dw =
      ⟨401, some "UNAUTHORIZED", none⟩ ∧
    (check_upload_allowance limit .missingHeader st now).status = 500 ∧
    (check_upload_allowance limit .missingHeader st now).state = st ∧
    (check_upload_allowance limit .missingHeader st now).effects =
      ({} : UAEffects) ∧
    (check_upload_allowance limit .notBearer st now).status = 500 ∧
    (check_upload_allowance limit .invalidToken st now).status = 500 ∧
    (check_upload_allowance limit .invalidToken st now).state = st ∧
    (check_upload_allowance limit .invalidToken st now).effects =
      ({} : UAEffects) ∧
    (DeleteFile.delete_file .missingHeader dOpt delw).status = 500 ∧
    (DeleteFile.delete_file .missingHeader dOpt delw).eff =
      ({} : DeleteFile.Effects) ∧
    (DeleteFile.delete_file .notBearer dOpt delw).status = 500 ∧
    (DeleteFile.delete_file .invalidToken dOpt delw).status = 500 ∧
    (DeleteFile.delete_file .invalidToken dOpt delw).eff =
      ({} : DeleteFile.Effects) ∧
    (Subscription.create_subscription_order .missingHeader co).status =
      500 ∧
    (Subscription.create_subscription_order .missingHeader co).orderId =
      none ∧
    (Subscription.create_subscription_order .notBearer co).status = 500 ∧
    (Subscription.create_subscription_order .invalidToken co).status =
      500 ∧
    (Subscription.create_subscription_order .invalidToken co).orderId =
      none ∧
    Payment.verify_payment .missingHeader pl kc fp =
      ⟨400, some "INVALID_ARGUMENT", "Unauthorized", []⟩ ∧
    Payment.verify_payment .notBearer pl kc fp =
      ⟨400, some "INVALID_ARGUMENT", "Unauthorized", []⟩ ∧
    (Payment.verify_payment .invalidToken pl kc fp).status = 500 ∧
    (Payment.verify_payment .invalidToken pl kc fp).userWrites = [] := by
  simp [chat_with_document, generate_doc_summary, hd,
    prepare_chat_session, Download.get_download_url,
    check_upload_allowance, DeleteFile.delete_file,
    Subscription.create_subscription_order, Payment.verify_payment]

/-- C3 witness for the amended statement, at concrete inputs. -/
theorem c3_witness :
    ((("d1" : String) == "") = false) ∧
    ((chat_with_document .missingHeader "d1" "q" ⟨[], []⟩ true
      (fun _ => "a")).status = 401 ∧
    (chat_with_document .missingHeader "d1" "q" ⟨[], []⟩ true
      (fun _ => "a")).eff = ({} : DocEffects) ∧
    (chat_with_document .notBearer "d1" "q" ⟨[], []⟩ true
      (fun _ => "a")).status = 401 ∧
    (chat_with_document .invalidToken "d1" "q" ⟨[], []⟩ true
      (fun _ => "a")).status = 500 ∧
    (chat_with_document .invalidToken "d1" "q" ⟨[], []⟩ true
      (fun _ => "a")).eff = ({} : DocEffects) ∧
    (generate_doc_summary (some "d1") .missingHeader ⟨[], []⟩
      (fun _ => none) true (fun _ => "a")).status = 401 ∧
    (generate_doc_summary (some "d1") .missingHeader ⟨[], []⟩
      (fun _ => none) true (fun _ => "a")).eff = ({} : DocEffects) ∧
    (generate_doc_summary (some "d1") .notBearer ⟨[], []⟩
      (fun _ => none) true (fun _ => "a")).status = 401 ∧
    (generate_doc_summary (some "d1") .invalidToken ⟨[], []⟩
      (fun _ => none) true (fun _ => "a")).status = 500 ∧
    (generate_doc_summary (some "d1") .invalidToken ⟨[], []⟩
      (fun _ => none) true (fun _ => "a")).eff =
      { fileUpdates :=
          if ((⟨[], []⟩ : DocDb).files.lookup "d1").isSome then
            [("d1", .statusFailed)]
          else [] } ∧
    prepare_chat_session false none ⟨[], []⟩ (fun _ => none)
      (fun _ => "a") = ⟨401, none, some "Unauthorized", {}⟩ ∧
    Download.get_download_url .missingHeader none
      ⟨[], fun _ => false, fun _ => "u"⟩ =
      ⟨401, some "UNAUTHORIZED", none⟩ ∧
    Download.get_download_url .notBearer none
      ⟨[], fun _ => false, fun _ => "u"⟩ =
      ⟨401, some "UNAUTHORIZED", none⟩ ∧
    Download.get_download_url .invalidToken none
      ⟨[], fun _ => false, fun _ => "u"⟩ =
      ⟨401, some "UNAUTHORIZED", none⟩ ∧
    (check_upload_allowance 5 .missingHeader ⟨[], [], []⟩ 0).status =
      500 ∧
    (check_upload_allowance 5 .missingHeader ⟨[], [], []⟩ 0).state =
      (⟨[], [], []⟩ : UAState) ∧
    (check_upload_allowance 5 .missingHeader ⟨[], [], []⟩ 0).effects =
      ({} : UAEffects) ∧
    (check_upload_allowance 5 .notBearer ⟨[], [], []⟩ 0).status = 500 ∧
    (check_upload_allowance 5 .invalidToken ⟨[], [], []⟩ 0).status =
      500 ∧
    (check_upload_allowance 5 .invalidToken ⟨[], [], []⟩ 0).state =
      (⟨[], [], []⟩ : UAState) ∧
    (check_upload_allowance 5 .invalidToken ⟨[], [], []⟩ 0).effects =
      ({} : UAEffects) ∧
    (DeleteFile.delete_file .missingHeader none
      ⟨[], fun _ => false⟩).status = 500 ∧
    (DeleteFile.delete_file .missingHeader none
      ⟨[], fun _ => false⟩).eff = ({} : DeleteFile.Effects) ∧
    (DeleteFile.delete_file .notBearer none
      ⟨[], fun _ => false⟩).status = 500 ∧
    (DeleteFile.delete_file .invalidToken none
      ⟨[], fun _ => false⟩).status = 500 ∧
    (DeleteFile.delete_file .invalidToken none
      ⟨[], fun _ => false⟩).eff = ({} : DeleteFile.Effects) ∧
    (Subscription.create_subscription_order .missingHeader
      (.error "e")).status = 500 ∧
    (Subscription.create_subscription_order .missingHeader
      (.error "e")).orderId = none ∧
    (Subscription.create_subscription_order .notBearer
      (.error "e")).status = 500 ∧
    (Subscription.create_subscription_order .invalidToken
      (.error "e")).status = 500 ∧
    (Subscription.create_subscription_order .invalidToken
      (.error "e")).orderId = none ∧
    Payment.verify_payment .missingHeader none true (.error "e") =
      ⟨400, some "INVALID_ARGUMENT", "Unauthorized", []⟩ ∧
    Payment.verify_payment .notBearer none true (.error "e") =
      ⟨400, some "INVALID_ARGUMENT", "Unauthorized", []⟩ ∧
    (Payment.verify_payment .invalidToken none true
      (.error "e")).status = 500 ∧
    (Payment.verify_payment .invalidToken none true
      (.error "e")).userWrites = []) :=
  ⟨by decide,
    c3_amended_auth_failure_behaviour 5 ⟨[], [], []⟩ 0 "d1" "q" ⟨[], []⟩
      true (fun _ => "a") (fun _ => none)
      ⟨[], fun _ => false, fun _ => "u"⟩ ⟨[], fun _ => false⟩ none
      (.error "e") none true (.error "e") (fun _ => none) (fun _ => "a")
      (by decide)⟩

/-- C2 counterexample: `prepare_chat_session` has no ownership check — a
request for a chat-ready document owned by `alice`, carrying no caller
identity beyond the app-check token, is served the stored summary with
200, never 403. -/
theorem c2_counterexample_prepare_serves_nonowner :
    (prepare_chat_session true (some "d1")
      ⟨[("d1", ⟨"alice", true, some "S", some "p", none⟩)], []⟩
      (fun _ => none) (fun _ => "")).status = 200 ∧
    ¬ (prepare_chat_session true (some "d1")
      ⟨[("d1", ⟨"alice", true, some "S", some "p", none⟩)], []⟩
      (fun _ => none) (fun _ => "")).status = 403 ∧
    (prepare_chat_session true (some "d1")
      ⟨[("d1", ⟨"alice", true, some "S", some "p", none⟩)], []⟩
      (fun _ => none) (fun _ => "")).payload = some "S" := by
  decide

/-- C2 amended: chat and summary generation return 403 with no generative
call and no write for a verified caller that is not the stored owner;
`prepare_chat_session` performs no ownership check at all and never
returns 403 on any input. -/
theorem c2_amended_ownership_enforcement (uid email docId question : String)
    (db : DocDb) (fd : FileData)
    (pdfPages : String → Option (List String)) (gk : Bool)
    (g : String → String)
    (hf : db.files.lookup docId = some fd)
    (hown : (fd.userId == uid) = false)
    (hd : (docId == "") = false) (hq : (question == "") = false) :
    chat_with_document (.valid uid email) docId question db gk g =
      ⟨403, none, some "Forbidden", {}⟩ ∧
    generate_doc_summary (some docId) (.valid uid email) db pdfPages gk g =
      ⟨403, none, some "Forbidden", {}⟩ ∧
    (∀ (ac : Bool) (dOpt : Option String) (db2 : DocDb)
        (pp : String → Option (List String)) (g2 : String → String),
      ¬ (prepare_chat_session ac dOpt db2 pp g2).status = 403) := by
  refine ⟨?_, ?_, ?_⟩
  · simp [chat_with_document, hd, hq, hf, hown]
  · simp [generate_doc_summary, hd, hf, hown]
  · intro ac dOpt db2 pp g2 h
    unfold prepare_chat_session at h
    repeat' split at h
    all_goals try simp only [] at h
    all_goals try split_ifs at h
    all_goals simp_all

/-- C2 witness: caller `mallory` on a document owned by `alice`. -/
theorem c2_witness :
    ((⟨[("d1", ⟨"alice", true, some "S", some "p", none⟩)],
        []⟩ : DocDb).files.lookup "d1" =
      some ⟨"alice", true, some "S", some "p", none⟩) ∧
    ((("alice" : String) == "mallory") = false) ∧
    ((("d1" : String) == "") = false) ∧ ((("q" : String) == "") = false) ∧
    chat_with_document (.valid "mallory" "m") "d1" "q"
      ⟨[("d1", ⟨"alice", true, some "S", some "p", none⟩)], []⟩ true
      (fun _ => "a") = ⟨403, none, some "Forbidden", {}⟩ ∧
    generate_doc_summary (some "d1") (.valid "mallory" "m")
      ⟨[("d1", ⟨"alice", true, some "S", some "p", none⟩)], []⟩
      (fun _ => none) true (fun _ => "a") =
      ⟨403, none, some "Forbidden", {}⟩ ∧
    ¬ (prepare_chat_session true (some "d1")
      ⟨[("d1", ⟨"alice", true, some "S", some "p", none⟩)], []⟩
      (fun _ => none) (fun _ => "a")).status = 403 := by
  have h := c2_amended_ownership_enforcement "mallory" "m" "d1" "q"
    ⟨[("d1", ⟨"alice", true, some "S", some "p", none⟩)], []⟩
    ⟨"alice", true, some "S", some "p", none⟩ (fun _ => none) true
    (fun _ => "a") (by decide) (by decide) (by decide) (by decide)
  exact ⟨by decide, by decide, by decide, by decide, h.1, h.2.1,
    h.2.2 true (some "d1")
      ⟨[("d1", ⟨"alice", true, some "S", some "p", none⟩)], []⟩
      (fun _ => none) (fun _ => "a")⟩

/-- C9: on a chat-ready record with a stored summary, both the summary
handler and the chat-preparation handler return exactly the stored
summary with no download, no generative call and no write. -/
theorem c9_chat_ready_idempotent (uid email docId : String) (db : DocDb)
    (fd : FileData) (s : String)
    (pdfPages : String → Option (List String)) (gk : Bool)
    (g : String → String)
    (hf : db.files.lookup docId = some fd)
    (hown : (fd.userId == uid) = true)
    (hready : fd.isChatReady = true)
    (hsum : fd.summary = some s)
    (hd : (docId == "") = false) :
    generate_doc_summary (some docId) (.valid uid email) db pdfPages gk g =
      ⟨200, some s, none, {}⟩ ∧
    prepare_chat_session true (some docId) db pdfPages g =
      ⟨200, some s, none, {}⟩ := by
  constructor
  · simp [generate_doc_summary, hd, hf, hown, hready, hsum]
  · simp [prepare_chat_session, hf, hready, hsum]

/-- C9 witness: the owner re-asks for the summary of a chat-ready
document. -/
theorem c9_witness :
    ((⟨[("d1", ⟨"alice", true, some "S", some "p", none⟩)],
        []⟩ : DocDb).files.lookup "d1" =
      some ⟨"alice", true, some "S", some "p", none⟩) ∧
    ((("alice" : String) == "alice") = true) ∧
    ((⟨"alice", true, some "S", some "p", none⟩ : FileData).isChatReady =
      true) ∧
    ((⟨"alice", true, some "S", some "p", none⟩ : FileData).summary =
      some "S") ∧
    ((("d1" : String) == "") = false) ∧
    generate_doc_summary (some "d1") (.valid "alice" "a")
      ⟨[("d1", ⟨"alice", true, some "S", some "p", none⟩)], []⟩
      (fun _ => none) true (fun _ => "x") = ⟨200, some "S", none, {}⟩ ∧
    prepare_chat_session true (some "d1")
      ⟨[("d1", ⟨"alice", true, some "S", some "p", none⟩)], []⟩
      (fun _ => none) (fun _ => "x") = ⟨200, some "S", none, {}⟩ := by
  have h := c9_chat_ready_idempotent "alice" "a" "d1"
    ⟨[("d1", ⟨"alice", true, some "S", some "p", none⟩)], []⟩
    ⟨"alice", true, some "S", some "p", none⟩ "S" (fun _ => none) true
    (fun _ => "x") (by decide) (by decide) (by decide) (by decide)
    (by decide)
  exact ⟨by decide, by decide, by decide, by decide, by decide, h.1, h.2⟩

/-- C6 counterexample: the path `uploads/u1/processed/a.txt` starts with
`uploads/` and is not under the `processed` prefix, so by the claim it
must be processed; the code ignores it because the guard tests substring
containment of `processed/`, not a path prefix. -/
theorem c6_counterexample_substring_guard :
    strStartsWith "uploads/u1/processed/a.txt" "uploads/" = true ∧
    strStartsWith "uploads/u1/processed/a.txt" "processed" = false ∧
    process_file_to_pdf "uploads/u1/processed/a.txt"
      { docId := some "d", docExists := true } =
      (.ignored, ({} : ConvEffects)) := by
  decide

/-- C6 amended: the event is ignored exactly when the object path
contains `processed/` as a substring or does not start with `uploads/`;
an ignored event has no side effect, and a non-ignored event whose
metadata lacks a (truthy) document id aborts with no side effect. -/
theorem c6_amended_ignore_guard (file_path : String) (w : ConvWorld) :
    ((process_file_to_pdf file_path w).1 = .ignored ↔
      (strContains file_path "processed/" ||
        !(strStartsWith file_path "uploads/")) = true) ∧
    ((process_file_to_pdf file_path w).1 = .ignored →
      (process_file_to_pdf file_path w).2 = ({} : ConvEffects)) ∧
    ((strContains file_path "processed/" ||
        !(strStartsWith file_path "uploads/")) = false →
      (w.docId = none ∨ w.docId = some "") →
      process_file_to_pdf file_path w = (.noDocId, ({} : ConvEffects))) := by
  have hnot : (strContains file_path "processed/" ||
      !(strStartsWith file_path "uploads/")) = false →
      ¬ (process_file_to_pdf file_path w).1 = .ignored := by
    intro hg h
    unfold process_file_to_pdf at h
    rw [hg] at h
    simp only [Bool.false_eq_true, if_false] at h
    repeat' split at h
    all_goals simp_all
  refine ⟨⟨?_, ?_⟩, ?_, ?_⟩
  · intro h
    by_cases hg : (strContains file_path "processed/" ||
        !(strStartsWith file_path "uploads/")) = true
    · exact hg
    · rw [Bool.not_eq_true] at hg
      exact absurd h (hnot hg)
  · intro hg
    unfold process_file_to_pdf
    rw [hg]
    simp
  · intro h
    by_cases hg : (strContains file_path "processed/" ||
        !(strStartsWith file_path "uploads/")) = true
    · unfold process_file_to_pdf
      rw [hg]
      simp
    · rw [Bool.not_eq_true] at hg
      exact absurd h (hnot hg)
  · intro hg hdoc
    unfold process_file_to_pdf
    rw [hg]
    rcases hdoc with h | h <;> simp [h]

/-- C6 witness. -/
theorem c6_witness :
    ((strContains "uploads/u1/a.txt" "processed/" ||
      !(strStartsWith "uploads/u1/a.txt" "uploads/")) = false) ∧
    process_file_to_pdf "uploads/u1/a.txt"
      { docId := none, docExists := true } =
      (.noDocId, ({} : ConvEffects)) ∧
    ((process_file_to_pdf "processed/u1/a.txt"
        { docId := some "d", docExists := true }).1 = .ignored ↔
      (strContains "processed/u1/a.txt" "processed/" ||
        !(strStartsWith "processed/u1/a.txt" "uploads/")) = true) :=
  ⟨by decide,
    (c6_amended_ignore_guard "uploads/u1/a.txt"
      { docId := none, docExists := true }).2.2 (by decide)
      (Or.inl rfl),
    (c6_amended_ignore_guard "processed/u1/a.txt"
      { docId := some "d", docExists := true }).1⟩

/-- C7: an event for a file whose lower-cased extension has no entry in
`FILE_HANDLERS` marks the record `Unsupported file type` and stops —
nothing downloaded, no converter invoked, nothing uploaded. -/
theorem c7_unsupported_extension_stops (file_path : String) (w : ConvWorld)
    (d : String)
    (hguard : (strContains file_path "processed/" ||
      !(strStartsWith file_path "uploads/")) = false)
    (hdoc : w.docId = some d) (hne : (d == "") = false)
    (hex : w.docExists = true)
    (hh : FILE_HANDLERS.lookup (lowerStr (pySplitextExt
      (pyBasename file_path))) = none) :
    process_file_to_pdf file_path w =
      (.unsupported,
        { downloaded := false, converterInvoked := none, uploadedTo := none,
          statusWrites := [(d, "Unsupported file type")] }) := by
  unfold process_file_to_pdf
  rw [hguard]
  simp only [Bool.false_eq_true, if_false, hdoc, hne, hex]
  simp [hh]

/-- C7 witness: extension `.xyz` has no handler. -/
theorem c7_witness :
    ((strContains "uploads/u1/a.xyz" "processed/" ||
      !(strStartsWith "uploads/u1/a.xyz" "uploads/")) = false) ∧
    (({ docId := some "d", docExists := true } : ConvWorld).docId =
      some "d") ∧
    ((("d" : String) == "") = false) ∧
    (({ docId := some "d", docExists := true } : ConvWorld).docExists =
      true) ∧
    (FILE_HANDLERS.lookup (lowerStr (pySplitextExt
      (pyBasename "uploads/u1/a.xyz"))) = none) ∧
    process_file_to_pdf "uploads/u1/a.xyz"
      { docId := some "d", docExists := true } =
      (.unsupported,
        { downloaded := false, converterInvoked := none, uploadedTo := none,
          statusWrites := [("d", "Unsupported file type")] }) :=
  ⟨by decide, by decide, by decide, by decide, by decide,
    c7_unsupported_extension_stops "uploads/u1/a.xyz"
      { docId := some "d", docExists := true } "d" (by decide) (by decide)
      (by decide) (by decide) (by decide)⟩

/-- C8 counterexample: a 101×280 page renders at zoom 1 to a 101-wide
raster whose height exactly touches 280, but the floor-division centering
leaves margins 49 and 50 — not equal on both sides. -/
theorem c8_counterexample_unequal_margins :
    raster_w 101 280 = 101 ∧ raster_h 101 280 = 280 ∧
    x_offset 101 = 49 ∧ right_margin 101 = 50 ∧
    ¬ x_offset 101 = right_margin 101 := by
  refine ⟨?_, ?_, by decide, by decide, by decide⟩
  · norm_num [raster_w, thumb_zoom]
  · norm_num [raster_h, thumb_zoom]

/-- C8 amended: the uniform zoom makes the binding dimension touch its
bound exactly and keeps the other within its bound; the integer centering
splits each leftover margin into halves that differ by at most one unit
(equal when the leftover is even). -/
theorem c8_amended_aspect_fit (W H : ℚ) (hW : 0 < W) (hH : 0 < H)
    (iw ih : Nat) (hiw : iw ≤ 200) (hih : ih ≤ 280) :
    ((raster_w W H = 200 ∧ raster_h W H ≤ 280) ∨
      (raster_h W H = 280 ∧ raster_w W H ≤ 200)) ∧
    (x_offset iw + right_margin iw + iw = 200 ∧
      x_offset iw ≤ right_margin iw ∧
      right_margin iw ≤ x_offset iw + 1) ∧
    (y_offset ih + bottom_margin ih + ih = 280 ∧
      y_offset ih ≤ bottom_margin ih ∧
      bottom_margin ih ≤ y_offset ih + 1) := by
  have hW' : W ≠ 0 := ne_of_gt hW
  have hH' : H ≠ 0 := ne_of_gt hH
  refine ⟨?_, ?_, ?_⟩
  · rcases le_total (200 / W) (280 / H) with h | h
    · left
      constructor
      · rw [raster_w, thumb_zoom, min_eq_left h]
        field_simp
      · rw [raster_h, thumb_zoom, min_eq_left h]
        calc H * (200 / W) ≤ H * (280 / H) :=
              mul_le_mul_of_nonneg_left h (le_of_lt hH)
          _ = 280 := by field_simp
    · right
      constructor
      · rw [raster_h, thumb_zoom, min_eq_right h]
        field_simp
      · rw [raster_w, thumb_zoom, min_eq_right h]
        calc W * (280 / H) ≤ W * (200 / W) :=
              mul_le_mul_of_nonneg_left h (le_of_lt hW)
          _ = 200 := by field_simp
  · simp only [right_margin, x_offset]
    omega
  · simp only [bottom_margin, y_offset]
    omega

/-- C8 witness: a 140×280 page fits at zoom 1 with exactly equal margins
(leftover even), bound touched on the height. -/
theorem c8_witness :
    (0 < (140 : ℚ)) ∧ (0 < (280 : ℚ)) ∧ (140 ≤ 200) ∧ (280 ≤ 280) ∧
    (((raster_w 140 280 = 200 ∧ raster_h 140 280 ≤ 280) ∨
      (raster_h 140 280 = 280 ∧ raster_w 140 280 ≤ 200)) ∧
    (x_offset 140 + right_margin 140 + 140 = 200 ∧
      x_offset 140 ≤ right_margin 140 ∧
      right_margin 140 ≤ x_offset 140 + 1) ∧
    (y_offset 280 + bottom_margin 280 + 280 = 280 ∧
      y_offset 280 ≤ bottom_margin 280 ∧
      bottom_margin 280 ≤ y_offset 280 + 1)) :=
  ⟨by norm_num, by norm_num, by norm_num, by norm_num,
    c8_amended_aspect_fit 140 280 (by norm_num) (by norm_num) 140 280
      (by norm_num) (by norm_num)⟩
